import Mathlib

/-!
Verification development for the PerigeeWatch orbital-tracking frontend core.

The embedding covers:
* the TLE element parser `parseTLE` of
  `frontend/src/hooks/useWorkerPositions.ts` (the tleParser module),
* the propagation worker `frontend/src/workers/propagation.worker.ts`
  (`initTLEs`, the per-satellite loop body of `propagateAll`, and the
  message handler), and
* the conjunction risk ladder `getRiskLevel` of
  `frontend/src/services/groundStation.ts`.

JavaScript numbers are idealised: a JS number is modelled as `JSR`
(NaN, +Infinity, -Infinity, or an exact real); exact decimal literals
parse to exact rationals.  Negative zero is identified with zero.
External satellite.js primitives (`propagate`, `gstime`, `eciToGeodetic`)
are abstract parameters; the tiny range-checked converters `degreesLat`
and `degreesLong` are modelled concretely from the library.
-/

/-- A JavaScript number: NaN, an infinity, or a finite (idealised exact)
real value. -/
inductive JSR where
  | nan : JSR
  | inf : JSR
  | ninf : JSR
  | num : ℝ → JSR

/-- JS `isNaN`. -/
def jsrIsNaN : JSR → Bool
  | .nan => true
  | _ => false

/-- JS `<` comparison; any comparison with NaN is false. -/
def jsrLt : JSR → JSR → Prop
  | .nan, _ => False
  | _, .nan => False
  | .ninf, .ninf => False
  | .ninf, _ => True
  | _, .ninf => False
  | .inf, _ => False
  | .num _, .inf => True
  | .num a, .num b => a < b

/-- IEEE negation. -/
def jsrNeg : JSR → JSR
  | .nan => .nan
  | .inf => .ninf
  | .ninf => .inf
  | .num a => .num (-a)

/-- IEEE addition (negative zero identified with zero). -/
def jsrAdd : JSR → JSR → JSR
  | .nan, _ => .nan
  | _, .nan => .nan
  | .inf, .ninf => .nan
  | .ninf, .inf => .nan
  | .inf, _ => .inf
  | _, .inf => .inf
  | .ninf, _ => .ninf
  | _, .ninf => .ninf
  | .num a, .num b => .num (a + b)

/-- IEEE subtraction, `a - b = a + (-b)`. -/
def jsrSub (a b : JSR) : JSR := jsrAdd a (jsrNeg b)

open Classical in
/-- IEEE multiplication: 0 * infinity is NaN, sign rules otherwise. -/
noncomputable def jsrMul : JSR → JSR → JSR
  | .nan, _ => .nan
  | _, .nan => .nan
  | .inf, .inf => .inf
  | .inf, .ninf => .ninf
  | .ninf, .inf => .ninf
  | .ninf, .ninf => .inf
  | .inf, .num b => if b = 0 then .nan else if 0 < b then .inf else .ninf
  | .num a, .inf => if a = 0 then .nan else if 0 < a then .inf else .ninf
  | .ninf, .num b => if b = 0 then .nan else if 0 < b then .ninf else .inf
  | .num a, .ninf => if a = 0 then .nan else if 0 < a then .ninf else .inf
  | .num a, .num b => .num (a * b)

open Classical in
/-- IEEE division (JS `/`): division by zero gives a signed infinity,
`0/0` gives NaN (negative zero identified with zero). -/
noncomputable def jsrDiv : JSR → JSR → JSR
  | .nan, _ => .nan
  | _, .nan => .nan
  | .inf, .inf => .nan
  | .inf, .ninf => .nan
  | .ninf, .inf => .nan
  | .ninf, .ninf => .nan
  | .inf, .num b => if b < 0 then .ninf else .inf
  | .ninf, .num b => if b < 0 then .inf else .ninf
  | .num _, .inf => .num 0
  | .num _, .ninf => .num 0
  | .num a, .num b =>
      if b = 0 then (if a = 0 then .nan else if 0 < a then .inf else .ninf)
      else .num (a / b)

/-- JS `Math.abs`. -/
def jsrAbs : JSR → JSR
  | .nan => .nan
  | .inf => .inf
  | .ninf => .inf
  | .num a => .num |a|

open Classical in
/-- JS `Math.sqrt`: NaN for negative arguments. -/
noncomputable def jsrSqrt : JSR → JSR
  | .nan => .nan
  | .inf => .inf
  | .ninf => .nan
  | .num a => if a < 0 then .nan else .num (Real.sqrt a)

/-- JS `Math.pow (x, 2)`. -/
def jsrSq : JSR → JSR
  | .nan => .nan
  | .inf => .inf
  | .ninf => .inf
  | .num a => .num (a * a)

open Classical in
/-- JS `Math.pow (x, 1/3)`: NaN for a negative finite base (non-integer
exponent), +Infinity for an infinite base. -/
noncomputable def jsrCbrt : JSR → JSR
  | .nan => .nan
  | .inf => .inf
  | .ninf => .inf
  | .num a => if a < 0 then .nan else .num (a ^ ((1 : ℝ) / 3))

/-- Promotion of a NaN-able exact rational (a parsed field) to a JS number. -/
def jq : Option ℚ → JSR
  | none => .nan
  | some q => .num (q : ℝ)

/-! ## JavaScript string primitives (over `List Char`) -/

/-- JS whitespace test (the characters occurring in TLE data plus the
common ASCII whitespace). -/
def jsIsWhitespace (c : Char) : Bool :=
  c == ' ' || c == '\t' || c == '\n' || c == '\r' || c == '\x0b' || c == '\x0c'

/-- JS `String.prototype.trim`. -/
def jsTrim (l : List Char) : List Char :=
  ((l.dropWhile jsIsWhitespace).reverse.dropWhile jsIsWhitespace).reverse

/-- Clamp a JS substring index into `[0, n]`. -/
def clampIdx (n : ℕ) (i : ℤ) : ℕ := min i.toNat n

/-- JS `String.prototype.substring (a, b)`: clamps both indices to the
string bounds and swaps them when out of order. -/
def jsSubstring (l : List Char) (a b : ℤ) : List Char :=
  let i := clampIdx l.length a
  let j := clampIdx l.length b
  (l.take (max i j)).drop (min i j)

/-- JS `String.prototype.substring (a)` (one-argument form). -/
def jsSubstringFrom (l : List Char) (a : ℤ) : List Char :=
  jsSubstring l a l.length

/-- JS `String.prototype.charAt`: the empty string when out of range. -/
def jsCharAt (l : List Char) (i : ℤ) : List Char :=
  if i < 0 then [] else (l.drop i.toNat).take 1

/-- JS `String.prototype.replace` with a single-character pattern:
replaces the first occurrence only. -/
def jsReplaceFirst : List Char → Char → Char → List Char
  | [], _, _ => []
  | c :: rest, a, b => if c = a then b :: rest else c :: jsReplaceFirst rest a b

/-- Numeric value of a decimal digit string. -/
def natOfDigits (l : List Char) : ℕ :=
  l.foldl (fun acc c => 10 * acc + (c.toNat - '0'.toNat)) 0

/-- Split an optional leading sign, returning the sign and the rest. -/
def splitSign : List Char → ℤ × List Char
  | '+' :: rest => (1, rest)
  | '-' :: rest => (-1, rest)
  | l => (1, l)

/-- JS `parseInt` with no radix argument on decimal data: skip leading
whitespace, optional sign, then the longest digit prefix; NaN (`none`)
when there is no digit.  (The `0x` hex prefix is not modelled; no TLE
field contains it.) -/
def jsParseInt (l : List Char) : Option ℤ :=
  let l₁ := l.dropWhile jsIsWhitespace
  let (s, l₂) := splitSign l₁
  let ds := l₂.takeWhile Char.isDigit
  if ds.isEmpty then none else some (s * natOfDigits ds)

/-- The scanner part of JS `parseFloat`: skip leading whitespace, optional
sign, then the longest prefix of the form `digits [. digits] [e [sign]
digits]`; `none` (NaN) when no digits occur before the exponent marker.
Returns `(sign, integer part, fraction digits value, fraction length,
exponent)`. -/
def jsParseFloatParts (l : List Char) : Option (ℤ × ℕ × ℕ × ℕ × ℤ) :=
  let l₁ := l.dropWhile jsIsWhitespace
  let (sg, l₂) := splitSign l₁
  let ip := l₂.takeWhile Char.isDigit
  let l₃ := l₂.dropWhile Char.isDigit
  let fp := match l₃ with
    | '.' :: rest => rest.takeWhile Char.isDigit
    | _ => []
  let l₄ := match l₃ with
    | '.' :: rest => rest.dropWhile Char.isDigit
    | _ => l₃
  if ip.isEmpty ∧ fp.isEmpty then none
  else
    let ex : ℤ := match l₄ with
      | e :: rest =>
          if e = 'e' ∨ e = 'E' then
            let (es, rest₂) := splitSign rest
            let eds := rest₂.takeWhile Char.isDigit
            if eds.isEmpty then 0 else es * natOfDigits eds
          else 0
      | [] => 0
    some (sg, natOfDigits ip, natOfDigits fp, fp.length, ex)

/-- The exact rational value of a scanned decimal literal. -/
def ratOfParts : ℤ × ℕ × ℕ × ℕ × ℤ → ℚ
  | (sg, i, f, k, e) => (sg : ℚ) * ((i : ℚ) + (f : ℚ) / 10 ^ k) * (10 : ℚ) ^ e

/-- JS `parseFloat`, idealised to exact rational values: NaN is `none`
(floating-point rounding is idealised away; the `Infinity` literal is
not modelled since no TLE field contains it). -/
def jsParseFloat (l : List Char) : Option ℚ :=
  (jsParseFloatParts l).map ratOfParts

theorem jsParseFloat_eval {l : List Char} (p : ℤ × ℕ × ℕ × ℕ × ℤ)
    (h : jsParseFloatParts l = some p) {q : ℚ} (hq : ratOfParts p = q) :
    jsParseFloat l = some q := by
  simp [jsParseFloat, h, hq]

theorem jsParseFloat_eval_none {l : List Char}
    (h : jsParseFloatParts l = none) : jsParseFloat l = none := by
  simp [jsParseFloat, h]

/-! ## The TLE element parser (`parseTLE` in the tleParser module of
`frontend/src/hooks/useWorkerPositions.ts`) -/

/-- The parsed orbital-element record returned by `parseTLE`.  Numeric
fields parsed from the lines are NaN-able exact rationals (`Option ℚ`,
`none` = NaN); derived quantities are JS numbers (`JSR`); `epochDate`
models the JS `Date` by its millisecond value (`none` = invalid date). -/
structure OrbitalElements where
  satelliteNumber : Option ℚ
  classification : String
  internationalDesignator : String
  epochYear : Option ℚ
  epochDay : Option ℚ
  epochDate : Option ℚ
  meanMotionDot : Option ℚ
  bstar : Option ℚ
  inclination : Option ℚ
  raan : Option ℚ
  eccentricity : Option ℚ
  argOfPerigee : Option ℚ
  meanAnomaly : Option ℚ
  meanMotion : Option ℚ
  revNumber : ℚ
  period : JSR
  semiMajorAxis : JSR
  apogee : JSR
  perigee : JSR
  velocity : JSR
  orbitType : String

/-- `EARTH_RADIUS_KM` constant of the source. -/
def EARTH_RADIUS_KM : ℝ := 6378.137

/-- `MU_EARTH` constant of the source (km³/s²). -/
def MU_EARTH : ℝ := 398600.4418

/-- The two-digit epoch-year rollover of the source:
`epochYearShort >= 57 ? 1900 + epochYearShort : 2000 + epochYearShort`. -/
def epochYearFromShort (y : ℤ) : ℤ :=
  if 57 ≤ y then 1900 + y else 2000 + y

/-- Milliseconds of `Date.UTC (y, 0, 1)`: proleptic-Gregorian day count
from the Unix epoch to January 1 of year `y`, including the JS quirk
that years 0–99 denote 1900–1999. -/
def msUTCJan1 (y : ℤ) : ℚ :=
  let yy : ℤ := if 0 ≤ y ∧ y ≤ 99 then 1900 + y else y
  (86400000 : ℚ) *
    ((365 * (yy - 1970) + (yy - 1969).fdiv 4 - (yy - 1901).fdiv 100 +
        (yy - 1601).fdiv 400 : ℤ) : ℚ)

open Classical in
/-- The orbit-class ladder at the end of `parseTLE` (lines 433–444): the
HEO eccentricity test is nested inside the `perigee < 2000` branch, so
it precedes the general LEO answer. -/
noncomputable def classifyOrbit (perigee eccentricity : JSR) : String :=
  if jsrLt perigee (.num 2000) then
    if jsrLt (.num 0.25) eccentricity then "HEO" else "LEO"
  else if jsrLt perigee (.num 35000) then "MEO" else "GEO"

/-- The body of the TLE parser `parseTLE (line1, line2)`: field
extraction follows the source line by line; `substring` / `trim` /
`charAt` / `parseInt` / `parseFloat` are the JS string primitives
modelled above. -/
noncomputable def parseTLErecord (line1 line2 : String) : OrbitalElements :=
  let L1 := line1.data
  let L2 := line2.data
  let satelliteNumber := (jsParseInt (jsTrim (jsSubstring L1 2 7))).map (fun z => (z : ℚ))
  let classification := jsCharAt L1 7
  let internationalDesignator := jsTrim (jsSubstring L1 9 17)
  let epochYearShort := jsParseInt (jsTrim (jsSubstring L1 18 20))
  let epochDay := jsParseFloat (jsTrim (jsSubstring L1 20 32))
  let epochYear := epochYearShort.map epochYearFromShort
  let epochDate := match epochYear, epochDay with
    | some y, some d => some (msUTCJan1 y + (d - 1) * 86400000)
    | _, _ => none
  let meanMotionDot := jsParseFloat (jsTrim (jsSubstring L1 33 43))
  let bstarStr := jsTrim (jsSubstring L1 53 61)
  let bstarMantissa :=
    jsParseFloat (jsReplaceFirst (jsSubstring bstarStr 0 ((bstarStr.length : ℤ) - 2)) ' ' '+')
  let bstarExp := jsParseInt (jsSubstringFrom bstarStr ((bstarStr.length : ℤ) - 2))
  let bstar := match bstarMantissa, bstarExp with
    | some m, some e => some (m * (10 : ℚ) ^ e)
    | _, _ => none
  let inclination := jsParseFloat (jsTrim (jsSubstring L2 8 16))
  let raan := jsParseFloat (jsTrim (jsSubstring L2 17 25))
  let eccentricity := jsParseFloat ('0' :: '.' :: jsTrim (jsSubstring L2 26 33))
  let argOfPerigee := jsParseFloat (jsTrim (jsSubstring L2 34 42))
  let meanAnomaly := jsParseFloat (jsTrim (jsSubstring L2 43 51))
  let meanMotion := jsParseFloat (jsTrim (jsSubstring L2 52 63))
  let revNumber := (((jsParseInt (jsTrim (jsSubstring L2 63 68))).getD 0 : ℤ) : ℚ)
  let period := jsrDiv (.num 1440) (jq meanMotion)
  let periodSeconds := jsrMul period (.num 60)
  let semiMajorAxis :=
    jsrCbrt (jsrMul (.num MU_EARTH) (jsrSq (jsrDiv periodSeconds (.num (2 * Real.pi)))))
  let apogee := jsrSub (jsrMul semiMajorAxis (jsrAdd (.num 1) (jq eccentricity))) (.num EARTH_RADIUS_KM)
  let perigee := jsrSub (jsrMul semiMajorAxis (jsrSub (.num 1) (jq eccentricity))) (.num EARTH_RADIUS_KM)
  let velocity := jsrSqrt (jsrDiv (.num MU_EARTH) semiMajorAxis)
  let orbitType := classifyOrbit perigee (jq eccentricity)
  {
    satelliteNumber := satelliteNumber
    classification := ⟨classification⟩
    internationalDesignator := ⟨internationalDesignator⟩
    epochYear := epochYear.map (fun z => (z : ℚ))
    epochDay := epochDay
    epochDate := epochDate
    meanMotionDot := meanMotionDot
    bstar := bstar
    inclination := inclination
    raan := raan
    eccentricity := eccentricity
    argOfPerigee := argOfPerigee
    meanAnomaly := meanAnomaly
    meanMotion := meanMotion
    revNumber := revNumber
    period := period
    semiMajorAxis := semiMajorAxis
    apogee := apogee
    perigee := perigee
    velocity := velocity
    orbitType := orbitType }

/-- The TLE parser `parseTLE (line1, line2)` as a JS function value: the
source has no throw site and no validation, so in the `Except` monad
(which models a JS function that could throw) it always returns `.ok`
of the parsed record. -/
noncomputable def parseTLE (line1 line2 : String) : Except Unit OrbitalElements :=
  .ok (parseTLErecord line1 line2)

/-! ## The propagation worker (`frontend/src/workers/propagation.worker.ts`)

The satellite.js propagation primitives are abstract: the worker is
parameterised by a `Primitives` bundle (`propagate`, `gstime`,
`eciToGeodetic`) and by `twoline2satrec`; throwing is modelled by
`Except Unit`.  The library's `degreesLat` / `degreesLong` converters are
small and are modelled concretely: they throw a RangeError outside
[-pi/2, pi/2] (resp. [-pi, pi]) and otherwise convert radians to
degrees. -/

/-- An ECI vector of JS numbers (satellite.js `EciVec3`). -/
structure EciVec where
  x : JSR
  y : JSR
  z : JSR

/-- A geodetic triple of JS numbers (satellite.js `Geodetic`), in radians
and kilometres. -/
structure Geodetic where
  latitude : JSR
  longitude : JSR
  height : JSR

/-- satellite.js `PositionAndVelocity`: each component is a vector or the
boolean `false` (modelled `none`) on propagation failure. -/
structure PositionAndVelocity where
  position : Option EciVec
  velocity : Option EciVec

/-- The abstract satellite.js primitives the worker calls.  `propagate`
may throw (`.error`) or return a nullish value (`none`). -/
structure Primitives (SatRec : Type) where
  propagate : SatRec → String → Except Unit (Option PositionAndVelocity)
  gstime : String → JSR
  eciToGeodetic : EciVec → JSR → Geodetic

open Classical in
/-- satellite.js `degreesLat`: throws a RangeError unless the radians lie
in [-pi/2, pi/2] (NaN passes the check and converts to NaN). -/
noncomputable def degreesLat : JSR → Except Unit JSR
  | .nan => .ok .nan
  | .inf => .error ()
  | .ninf => .error ()
  | .num r =>
      if r < -(Real.pi / 2) ∨ Real.pi / 2 < r then .error ()
      else .ok (.num (r * 180 / Real.pi))

open Classical in
/-- satellite.js `degreesLong`: throws a RangeError unless the radians
lie in [-pi, pi] (NaN passes the check and converts to NaN). -/
noncomputable def degreesLong : JSR → Except Unit JSR
  | .nan => .ok .nan
  | .inf => .error ()
  | .ninf => .error ()
  | .num r =>
      if r < -Real.pi ∨ Real.pi < r then .error ()
      else .ok (.num (r * 180 / Real.pi))

/-- A worker `init` input element (`TLEInput`). -/
structure TLEInput where
  norad_id : ℤ
  name : String
  object_type : Option String
  line1 : String
  line2 : String

/-- The worker's per-satellite record (`SatRecord`), holding the opaque
satrec and the previous-velocity cache (`null` = `none`). -/
structure SatRecord (SatRec : Type) where
  norad_id : ℤ
  name : String
  object_type : String
  satrec : SatRec
  prevVelocity : Option JSR

/-- A maneuver event as pushed by the worker. -/
structure ManeuverRec where
  norad_id : ℤ
  name : String
  deltaV : JSR
  prevVelocity : JSR
  newVelocity : JSR
  timestamp : String

/-- A position record as pushed in the `positions` snapshot. -/
structure PosRecord where
  norad_id : ℤ
  name : String
  object_type : String
  lat : JSR
  lon : JSR
  alt : JSR
  velocity : JSR

variable {SatRec : Type}

open Classical in
/-- Lines 101–115 of the worker: maneuver detection against the
previous-velocity cache, followed by the unconditional overwrite
`sat.prevVelocity = velocity`.  The event fires only when a previous
velocity exists, `velocity > 0`, and `|velocity - prev| > 0.05`. -/
noncomputable def maneuverCheck (sat : SatRecord SatRec) (velocity : JSR)
    (timestamp : String) : Option ManeuverRec × SatRecord SatRec :=
  let ev : Option ManeuverRec :=
    match sat.prevVelocity with
    | some prev =>
        if jsrLt (.num 0) velocity then
          let deltaV := jsrAbs (jsrSub velocity prev)
          if jsrLt (.num 0.05) deltaV then
            some { norad_id := sat.norad_id, name := sat.name, deltaV := deltaV,
                   prevVelocity := prev, newVelocity := velocity, timestamp := timestamp }
          else none
        else none
    | none => none
  (ev, { sat with prevVelocity := some velocity })

open Classical in
/-- The body of the `for` loop of `propagateAll` (lines 72–132) for one
satellite: propagate, validity checks on position/velocity, geodetic
conversion, velocity magnitude, maneuver detection with cache update,
then the invalid-position filter deciding whether a position record is
pushed.  A caught exception (anywhere before the pure arithmetic)
skips the satellite without touching its state. -/
noncomputable def processSat (P : Primitives SatRec) (timestamp : String)
    (gmst : JSR) (sat : SatRecord SatRec) :
    Option PosRecord × Option ManeuverRec × SatRecord SatRec :=
  match P.propagate sat.satrec timestamp with
  | .error _ => (none, none, sat)
  | .ok none => (none, none, sat)
  | .ok (some pv) =>
    match pv.position with
    | none => (none, none, sat)
    | some positionEci =>
      match pv.velocity with
      | none => (none, none, sat)
      | some velocityEci =>
        let geodetic := P.eciToGeodetic positionEci gmst
        match degreesLat geodetic.latitude with
        | .error _ => (none, none, sat)
        | .ok lat =>
          match degreesLong geodetic.longitude with
          | .error _ => (none, none, sat)
          | .ok lon =>
            let alt := geodetic.height
            let velocity :=
              jsrSqrt (jsrAdd (jsrAdd (jsrMul velocityEci.x velocityEci.x)
                (jsrMul velocityEci.y velocityEci.y)) (jsrMul velocityEci.z velocityEci.z))
            let checked := maneuverCheck sat velocity timestamp
            if jsrIsNaN lat || jsrIsNaN lon || jsrIsNaN alt then
              (none, checked.1, checked.2)
            else if jsrLt alt (.num 0) ∨ jsrLt (.num 100000) alt then
              (none, checked.1, checked.2)
            else
              (some { norad_id := sat.norad_id, name := sat.name,
                      object_type := sat.object_type, lat := lat, lon := lon,
                      alt := alt, velocity := velocity },
               checked.1, checked.2)

/-- The output of one `propagateAll` call: the `positions` snapshot, the
maneuver list, and the updated satellite table. -/
structure TickOutput (SatRec : Type) where
  results : List PosRecord
  maneuvers : List ManeuverRec
  satellites : List (SatRecord SatRec)

/-- `propagateAll (timestamp)`: run the loop body over the satellite
table in order, collecting pushed positions and maneuvers. -/
noncomputable def propagateAll (P : Primitives SatRec)
    (satellites : List (SatRecord SatRec)) (timestamp : String) :
    TickOutput SatRec :=
  let gmst := P.gstime timestamp
  let step := satellites.map (processSat P timestamp gmst)
  { results := step.filterMap (fun r => r.1)
    maneuvers := step.filterMap (fun r => r.2.1)
    satellites := step.map (fun r => r.2.2) }

/-- `initTLEs (tles)`: rebuild the satellite table from scratch; a
`twoline2satrec` throw skips that element (`// Skip invalid TLEs`).
`object_type` falls back to UNKNOWN when absent or empty (JS `||`).
Every accepted record starts with `prevVelocity: null`. -/
def initTLEs (t2s : String → String → Except Unit SatRec)
    (tles : List TLEInput) : List (SatRecord SatRec) :=
  tles.filterMap (fun t =>
    match t2s t.line1 t.line2 with
    | .ok satrec =>
        some { norad_id := t.norad_id, name := t.name,
               object_type :=
                 match t.object_type with
                 | none => "UNKNOWN"
                 | some s => if s = "" then "UNKNOWN" else s,
               satrec := satrec, prevVelocity := none }
    | .error _ => none)

/-- Whether `twoline2satrec` accepts a TLE input (no throw). -/
def acceptsTLE (t2s : String → String → Except Unit SatRec)
    (t : TLEInput) : Bool :=
  match t2s t.line1 t.line2 with
  | .ok _ => true
  | .error _ => false

/-- A message arriving at the worker. -/
inductive WorkerMsg where
  | init (tles : List TLEInput)
  | propagate (timestamp : String)

/-- The messages the worker posts back while handling one message:
`init_complete` with the tracked count, the `positions` snapshot, and
the `maneuvers` message (posted only when the list is non-empty). -/
structure WorkerOut where
  initComplete : Option ℕ
  positions : Option (List PosRecord)
  maneuvers : Option (List ManeuverRec)

/-- The worker's `onmessage` dispatcher: `init` rebuilds the table
(ignoring the previous one) and reports the count; `propagate` runs
`propagateAll` and posts positions, plus maneuvers when non-empty. -/
noncomputable def onmessage (P : Primitives SatRec)
    (t2s : String → String → Except Unit SatRec)
    (satellites : List (SatRecord SatRec)) :
    WorkerMsg → List (SatRecord SatRec) × WorkerOut
  | .init tles =>
      let sats := initTLEs t2s tles
      (sats, { initComplete := some sats.length, positions := none, maneuvers := none })
  | .propagate ts =>
      let out := propagateAll P satellites ts
      (out.satellites,
       { initComplete := none, positions := some out.results,
         maneuvers := if 0 < out.maneuvers.length then some out.maneuvers else none })

/-! ## Conjunction risk classification (`frontend/src/services/groundStation.ts`)
and the screening pass -/

open Classical in
/-- `getRiskLevel` (lines 154–159): the fixed distance ladder. -/
noncomputable def getRiskLevel (distance : ℝ) : String :=
  if distance < 1 then "CRITICAL"
  else if distance < 5 then "HIGH"
  else if distance < 25 then "MODERATE"
  else "LOW"

/-- A tracked object's screening input: identity plus a position (km). -/
structure ScreenState where
  norad : ℤ
  name : String
  x : ℝ
  y : ℝ
  z : ℝ

/-- A conjunction event produced by screening. -/
structure ConjEvent where
  sat1 : ℤ
  sat2 : ℤ
  distance : ℝ
  risk : String

/-- All unordered pairs of a list, each pair once. -/
def allPairs {α : Type} : List α → List (α × α)
  | [] => []
  | x :: xs => xs.map (fun y => (x, y)) ++ allPairs xs

/-- Euclidean distance between two screening states. -/
noncomputable def dist3 (a b : ScreenState) : ℝ :=
  Real.sqrt ((a.x - b.x) ^ 2 + (a.y - b.y) ^ 2 + (a.z - b.z) ^ 2)

open Classical in
/-- Modelled from the spec: the Conjunction Screener (the backend
`screen (states, thresholdKm)` is not part of the frontend sources):
for every unordered pair compute the Euclidean distance between the
positions and retain pairs with `distance < thresholdKm`, classifying
risk with the `getRiskLevel` ladder. -/
noncomputable def screen (states : List ScreenState) (thresholdKm : ℝ) :
    List ConjEvent :=
  (allPairs states).filterMap (fun p =>
    let d := dist3 p.1 p.2
    if d < thresholdKm then
      some { sat1 := p.1.norad, sat2 := p.2.norad, distance := d,
             risk := getRiskLevel d }
    else none)

/-! ## Evaluation lemmas for the JS-number operations -/

@[simp] theorem jsrLt_num_num (a b : ℝ) : jsrLt (.num a) (.num b) ↔ a < b :=
  Iff.rfl

@[simp] theorem jsrAdd_num_num (a b : ℝ) :
    jsrAdd (.num a) (.num b) = .num (a + b) := rfl

@[simp] theorem jsrSub_num_num (a b : ℝ) :
    jsrSub (.num a) (.num b) = .num (a - b) := by
  simp [jsrSub, jsrNeg, jsrAdd, sub_eq_add_neg]

@[simp] theorem jsrMul_num_num (a b : ℝ) :
    jsrMul (.num a) (.num b) = .num (a * b) := rfl

@[simp] theorem jsrAbs_num (a : ℝ) : jsrAbs (.num a) = .num |a| := rfl

@[simp] theorem jsrSq_num (a : ℝ) : jsrSq (.num a) = .num (a * a) := rfl

@[simp] theorem jq_some (q : ℚ) : jq (some q) = .num (q : ℝ) := rfl

@[simp] theorem jq_none : jq none = .nan := rfl

@[simp] theorem jsrIsNaN_num (a : ℝ) : jsrIsNaN (.num a) = false := rfl

theorem jsrDiv_num_num_of_ne (a : ℝ) {b : ℝ} (hb : b ≠ 0) :
    jsrDiv (.num a) (.num b) = .num (a / b) := by
  simp [jsrDiv, hb]

theorem jsrSqrt_num_of_nonneg {a : ℝ} (ha : 0 ≤ a) :
    jsrSqrt (.num a) = .num (Real.sqrt a) := by
  simp [jsrSqrt, not_lt.mpr ha]

theorem jsrCbrt_num_of_nonneg {a : ℝ} (ha : 0 ≤ a) :
    jsrCbrt (.num a) = .num (a ^ ((1 : ℝ) / 3)) := by
  simp [jsrCbrt, not_lt.mpr ha]

/-! ## Claims -/

/-- Claim C5: for every (perigee, eccentricity) pair, `classifyOrbit`
assigns exactly one of the four labels (total over the pair, the four
labels pairwise distinct), following the ladder in which the HEO check
precedes the general LEO answer: perigee < 2000 and eccentricity > 0.25
gives HEO; perigee < 2000 otherwise gives LEO; perigee < 35000 gives
MEO; else GEO. -/
theorem c5_orbit_classification :
    ∀ p e : ℝ,
      (p < 2000 → 0.25 < e → classifyOrbit (.num p) (.num e) = "HEO") ∧
      (p < 2000 → ¬0.25 < e → classifyOrbit (.num p) (.num e) = "LEO") ∧
      (¬p < 2000 → p < 35000 → classifyOrbit (.num p) (.num e) = "MEO") ∧
      (¬p < 2000 → ¬p < 35000 → classifyOrbit (.num p) (.num e) = "GEO") ∧
      (classifyOrbit (.num p) (.num e) = "HEO" ∨
        classifyOrbit (.num p) (.num e) = "LEO" ∨
        classifyOrbit (.num p) (.num e) = "MEO" ∨
        classifyOrbit (.num p) (.num e) = "GEO") ∧
      (("HEO" : String) ≠ "LEO" ∧ ("HEO" : String) ≠ "MEO" ∧
        ("HEO" : String) ≠ "GEO" ∧ ("LEO" : String) ≠ "MEO" ∧
        ("LEO" : String) ≠ "GEO" ∧ ("MEO" : String) ≠ "GEO") := by
  intro p e
  have hc : classifyOrbit (.num p) (.num e) =
      if p < 2000 then (if 0.25 < e then "HEO" else "LEO")
      else if p < 35000 then "MEO" else "GEO" := by
    simp [classifyOrbit]
  refine ⟨fun h1 h2 => ?_, fun h1 h2 => ?_, fun h1 h2 => ?_, fun h1 h2 => ?_, ?_, by decide⟩
  · rw [hc, if_pos h1, if_pos h2]
  · rw [hc, if_pos h1, if_neg h2]
  · rw [hc, if_neg h1, if_pos h2]
  · rw [hc, if_neg h1, if_neg h2]
  · rw [hc]; split_ifs <;> simp

/-- Witness for C5 at concrete pairs in each of the four regions. -/
theorem c5_witness :
    classifyOrbit (.num 1000) (.num 0.5) = "HEO" ∧
    classifyOrbit (.num 1000) (.num 0.1) = "LEO" ∧
    classifyOrbit (.num 10000) (.num 0) = "MEO" ∧
    classifyOrbit (.num 40000) (.num 0) = "GEO" :=
  ⟨(c5_orbit_classification 1000 0.5).1 (by norm_num) (by norm_num),
   (c5_orbit_classification 1000 0.1).2.1 (by norm_num) (by norm_num),
   (c5_orbit_classification 10000 0).2.2.1 (by norm_num) (by norm_num),
   (c5_orbit_classification 40000 0).2.2.2.1 (by norm_num) (by norm_num)⟩

/-- First object of the C6 screening instance, at the origin. -/
def screenSatA : ScreenState := { norad := 1, name := "A", x := 0, y := 0, z := 0 }

/-- Second object of the C6 screening instance, 25.1 km away. -/
def screenSatB : ScreenState := { norad := 2, name := "B", x := 25.1, y := 0, z := 0 }

/-- Claim C6: `getRiskLevel` returns CRITICAL for d < 1, HIGH for
1 <= d < 5, MODERATE for 5 <= d < 25 and LOW otherwise; in particular
0.8 is CRITICAL and 4.9 is HIGH, and a pair at 25.1 km is excluded
entirely by screening with threshold 25 (screening modelled from the
spec). -/
theorem c6_risk_ladder :
    (∀ d : ℝ,
      (d < 1 → getRiskLevel d = "CRITICAL") ∧
      (1 ≤ d → d < 5 → getRiskLevel d = "HIGH") ∧
      (5 ≤ d → d < 25 → getRiskLevel d = "MODERATE") ∧
      (25 ≤ d → getRiskLevel d = "LOW")) ∧
    getRiskLevel 0.8 = "CRITICAL" ∧
    getRiskLevel 4.9 = "HIGH" ∧
    screen [screenSatA, screenSatB] 25 = [] := by
  have hladder : ∀ d : ℝ,
      (d < 1 → getRiskLevel d = "CRITICAL") ∧
      (1 ≤ d → d < 5 → getRiskLevel d = "HIGH") ∧
      (5 ≤ d → d < 25 → getRiskLevel d = "MODERATE") ∧
      (25 ≤ d → getRiskLevel d = "LOW") := by
    intro d
    refine ⟨fun h => ?_, fun h1 h2 => ?_, fun h1 h2 => ?_, fun h => ?_⟩
    · rw [getRiskLevel, if_pos h]
    · rw [getRiskLevel, if_neg (not_lt.mpr h1), if_pos h2]
    · rw [getRiskLevel, if_neg (by linarith), if_neg (not_lt.mpr h1), if_pos h2]
    · rw [getRiskLevel, if_neg (by linarith), if_neg (by linarith),
        if_neg (not_lt.mpr h)]
  have hd : dist3 screenSatA screenSatB = 25.1 := by
    have : ((0 : ℝ) - 25.1) ^ 2 + ((0 : ℝ) - 0) ^ 2 + ((0 : ℝ) - 0) ^ 2 =
        (25.1 : ℝ) ^ 2 := by norm_num
    rw [dist3]
    show Real.sqrt (((0 : ℝ) - 25.1) ^ 2 + ((0 : ℝ) - 0) ^ 2 + ((0 : ℝ) - 0) ^ 2) = 25.1
    rw [this]
    exact Real.sqrt_sq (by norm_num)
  have h25 : ¬(25.1 : ℝ) < 25 := by norm_num
  refine ⟨hladder, (hladder 0.8).1 (by norm_num),
    (hladder 4.9).2.1 (by norm_num) (by norm_num), ?_⟩
  simp [screen, allPairs, hd, h25]

/-- Witness for C6 at concrete distances in each bucket. -/
theorem c6_witness :
    getRiskLevel 0.5 = "CRITICAL" ∧ getRiskLevel 3 = "HIGH" ∧
    getRiskLevel 10 = "MODERATE" ∧ getRiskLevel 30 = "LOW" :=
  ⟨(c6_risk_ladder.1 0.5).1 (by norm_num),
   (c6_risk_ladder.1 3).2.1 (by norm_num) (by norm_num),
   (c6_risk_ladder.1 10).2.2.1 (by norm_num) (by norm_num),
   (c6_risk_ladder.1 30).2.2.2 (by norm_num)⟩

/-- A standard line 1 whose epoch-year field (columns 19–20) is 98. -/
def tleLine98 : String :=
  "1 25544U 98067A   98264.51782528 -.00002182  00000-0 -11606-4 0  2927"

/-- A standard line 1 whose epoch-year field (columns 19–20) is 24. -/
def tleLine24 : String :=
  "1 25544U 98067A   24264.51782528 -.00002182  00000-0 -11606-4 0  2927"

/-- Claim C7: the parser maps a two-digit epoch year >= 57 to the 1900s
and < 57 to the 2000s; in particular field 98 yields 1998 and field 24
yields 2024, the rollover boundary being 57. -/
theorem c7_epoch_year_rollover :
    (∀ y : ℤ, (57 ≤ y → epochYearFromShort y = 1900 + y) ∧
      (y < 57 → epochYearFromShort y = 2000 + y)) ∧
    (parseTLErecord tleLine98 "").epochYear = some 1998 ∧
    (parseTLErecord tleLine24 "").epochYear = some 2024 := by
  refine ⟨fun y => ⟨fun h => ?_, fun h => ?_⟩, ?_, ?_⟩
  · simp only [epochYearFromShort]; rw [if_pos h]
  · simp only [epochYearFromShort]; rw [if_neg (by omega)]
  · simp only [parseTLErecord]
    rw [show jsParseInt (jsTrim (jsSubstring tleLine98.data 18 20)) = some 98 from by decide]
    norm_num [epochYearFromShort]
  · simp only [parseTLErecord]
    rw [show jsParseInt (jsTrim (jsSubstring tleLine24.data 18 20)) = some 24 from by decide]
    norm_num [epochYearFromShort]

/-- Witness for C7: the rollover applied at 98 and 24. -/
theorem c7_witness :
    epochYearFromShort 98 = 1900 + 98 ∧ epochYearFromShort 24 = 2000 + 24 :=
  ⟨(c7_epoch_year_rollover.1 98).1 (by norm_num),
   (c7_epoch_year_rollover.1 24).2 (by norm_num)⟩

/-- A standard line 2 whose eccentricity field (columns 27–33) is
1234567. -/
def tleLine2ecc : String :=
  "2 25544  51.6416 247.4627 1234567 130.5360 325.0288 15.72125391563537"

/-- Claim C8: the parser extracts the eccentricity from columns 27–33
with an implied leading decimal point (prepending the characters 0 and
dot); the field 1234567 parses to exactly 0.1234567. -/
theorem c8_eccentricity_implied_point :
    ∀ l1 l2 : String,
      (parseTLErecord l1 l2).eccentricity =
        jsParseFloat ('0' :: '.' :: jsTrim (jsSubstring l2.data 26 33)) ∧
      (jsSubstring l2.data 26 33 = "1234567".data →
        (parseTLErecord l1 l2).eccentricity = some (1234567 / 10000000)) := by
  intro l1 l2
  have h1 : (parseTLErecord l1 l2).eccentricity =
      jsParseFloat ('0' :: '.' :: jsTrim (jsSubstring l2.data 26 33)) := by
    simp only [parseTLErecord]
  refine ⟨h1, fun hsub => ?_⟩
  rw [h1, hsub]
  rw [show ('0' :: '.' :: jsTrim "1234567".data) = "0.1234567".data from by decide]
  exact jsParseFloat_eval (1, 0, 1234567, 7, 0) (by decide) (by norm_num [ratOfParts])

/-- Witness for C8 on a concrete line 2 carrying the field 1234567. -/
theorem c8_witness :
    (parseTLErecord "" tleLine2ecc).eccentricity = some (1234567 / 10000000) :=
  (c8_eccentricity_implied_point "" tleLine2ecc).2 (by decide)

/-- Helper: mapping a NaN parse result stays NaN. -/
theorem optionMap_cast_none (o : Option ℤ) (h : o = none) :
    o.map (fun z => (z : ℚ)) = none := by rw [h]; rfl

/-- Claim C1 counterexample: the empty line pair violates the fixed-column
layout (length 0, no digits in any required numeric field), yet the
parser does not fail: it returns a record whose catalog number and mean
motion are NaN. -/
theorem c1_counterexample :
    ("" : String).length ≠ 69 ∧
    parseTLE "" "" = .ok (parseTLErecord "" "") ∧
    (parseTLErecord "" "").satelliteNumber = none ∧
    (parseTLErecord "" "").meanMotion = none := by
  refine ⟨by decide, rfl, ?_, ?_⟩
  · simp only [parseTLErecord]
    exact optionMap_cast_none _ (by decide)
  · simp only [parseTLErecord]
    exact jsParseFloat_eval_none (by decide)

/-- Claim C1 (amended): `parseTLE` never fails — it returns a record for
every input, malformed or not, with unparsable numeric fields NaN;
rejection of bad element sets is instead per-object in the worker's
`initTLEs`, whose `twoline2satrec` failures are skipped without
aborting the processing of the remaining catalog. -/
theorem c1_parse_never_fails :
    (∀ l1 l2 : String, parseTLE l1 l2 = .ok (parseTLErecord l1 l2)) ∧
    (∀ (S : Type) (t2s : String → String → Except Unit S) (t : TLEInput)
      (tles : List TLEInput), t2s t.line1 t.line2 = .error () →
      initTLEs t2s (t :: tles) = initTLEs t2s tles) := by
  refine ⟨fun l1 l2 => rfl, fun S t2s t tles h => ?_⟩
  simp [initTLEs, List.filterMap_cons, h]

/-- A concrete TLE input for the worker-level witnesses. -/
def tleInput0 : TLEInput :=
  { norad_id := 25544, name := "ISS", object_type := none, line1 := "", line2 := "" }

/-- Witness for C1: totality at the empty pair, and skipping a rejected
head element leaves the rest of the catalog processed. -/
theorem c1_witness :
    parseTLE "" "" = .ok (parseTLErecord "" "") ∧
    initTLEs (fun _ _ => Except.error ()) [tleInput0] =
      (initTLEs (fun _ _ => Except.error ()) [] : List (SatRecord Unit)) :=
  ⟨c1_parse_never_fails.1 "" "",
   c1_parse_never_fails.2 Unit (fun _ _ => Except.error ()) tleInput0 [] rfl⟩

/-- Claim C2 (amended): the detector step emits an event exactly when a
previous velocity exists, the new velocity is positive (the source also
requires `velocity > 0`), and `|v_new - v_prev| > 0.05`; the emitted
event carries both velocities and the delta; the first observation
never emits; the stored velocity is always overwritten with the new
one; velocities 7.5 then 7.56 emit delta-v 0.06 while 7.5 then 7.53
emit nothing. -/
theorem c2_maneuver_rule :
    ∀ (S : Type) (sat : SatRecord S) (v : JSR) (ts : String),
      ((maneuverCheck sat v ts).1 ≠ none ↔
        ∃ p, sat.prevVelocity = some p ∧ jsrLt (.num 0) v ∧
          jsrLt (.num 0.05) (jsrAbs (jsrSub v p))) ∧
      (maneuverCheck sat v ts).2.prevVelocity = some v ∧
      (sat.prevVelocity = none → (maneuverCheck sat v ts).1 = none) ∧
      (∀ ev, (maneuverCheck sat v ts).1 = some ev →
        ∃ p, sat.prevVelocity = some p ∧ ev.prevVelocity = p ∧
          ev.newVelocity = v ∧ ev.deltaV = jsrAbs (jsrSub v p)) ∧
      (sat.prevVelocity = some (.num 7.5) →
        (maneuverCheck sat (.num 7.56) ts).1 =
          some { norad_id := sat.norad_id, name := sat.name,
                 deltaV := .num (0.06 : ℝ), prevVelocity := .num 7.5,
                 newVelocity := .num 7.56, timestamp := ts } ∧
        (maneuverCheck sat (.num 7.53) ts).1 = none) := by
  intro S sat v ts
  rcases hp : sat.prevVelocity with _ | p
  · refine ⟨by simp [maneuverCheck, hp], by simp [maneuverCheck, hp],
      fun _ => by simp [maneuverCheck, hp], fun ev hev => ?_, fun h => ?_⟩
    · simp [maneuverCheck, hp] at hev
    · exact Option.noConfusion h
  · refine ⟨?_, by simp [maneuverCheck, hp], fun h => Option.noConfusion h,
      fun ev hev => ?_, fun h75 => ?_⟩
    · by_cases h0 : jsrLt (.num 0) v
      · by_cases hd : jsrLt (.num 0.05) (jsrAbs (jsrSub v p)) <;>
          simp [maneuverCheck, hp, h0, hd]
      · simp [maneuverCheck, hp, h0]
    · by_cases h0 : jsrLt (.num 0) v
      · by_cases hd : jsrLt (.num 0.05) (jsrAbs (jsrSub v p))
        · simp only [maneuverCheck, hp, if_pos h0, if_pos hd,
            Option.some.injEq] at hev
          exact ⟨p, rfl, by rw [← hev], by rw [← hev], by rw [← hev]⟩
        · simp [maneuverCheck, hp, h0, hd] at hev
      · simp [maneuverCheck, hp, h0] at hev
    · injection h75 with h75; subst h75
      have h56 : |(7.56 : ℝ) - 7.5| = 0.06 := by
        rw [show (7.56 : ℝ) - 7.5 = 0.06 from by norm_num,
          abs_of_nonneg (by norm_num : (0 : ℝ) ≤ 0.06)]
      have h53 : |(7.53 : ℝ) - 7.5| = 0.03 := by
        rw [show (7.53 : ℝ) - 7.5 = 0.03 from by norm_num,
          abs_of_nonneg (by norm_num : (0 : ℝ) ≤ 0.03)]
      have a1 : |(3 : ℝ) / 50| = 3 / 50 := abs_of_nonneg (by norm_num)
      have a2 : |(3 : ℝ) / 100| = 3 / 100 := abs_of_nonneg (by norm_num)
      constructor
      · norm_num [maneuverCheck, hp, h56, a1]
      · norm_num [maneuverCheck, hp, h53, a2]

/-- The satellite record used by the C2 concrete instances: previous
velocity 7.5 km/s. -/
def c2sat : SatRecord Unit :=
  { norad_id := 1, name := "SAT", object_type := "UNKNOWN", satrec := (),
    prevVelocity := some (.num 7.5) }

/-- Claim C2 counterexample: a previous velocity (7.5) exists and the
delta |0 - 7.5| = 7.5 exceeds 0.05, yet no event is emitted for a new
velocity of 0, because the source additionally requires
`velocity > 0` — refuting the claimed `exactly when`. -/
theorem c2_counterexample :
    c2sat.prevVelocity = some (.num 7.5) ∧
    jsrLt (.num 0.05) (jsrAbs (jsrSub (.num 0) (.num 7.5))) ∧
    (maneuverCheck c2sat (.num 0) "t").1 = none := by
  refine ⟨rfl, ?_, ?_⟩
  · rw [jsrSub_num_num, jsrAbs_num, jsrLt_num_num,
      show (0 : ℝ) - 7.5 = -7.5 from by norm_num, abs_neg,
      abs_of_nonneg (by norm_num : (0 : ℝ) ≤ 7.5)]
    norm_num
  · have h0 : ¬jsrLt (.num (0 : ℝ)) (.num (0 : ℝ)) := by
      rw [jsrLt_num_num]; norm_num
    simp [maneuverCheck, c2sat, h0]

/-- Witness for C2: the two concrete detector runs from velocity 7.5. -/
theorem c2_witness :
    (maneuverCheck c2sat (.num 7.56) "t").1 =
      some { norad_id := c2sat.norad_id, name := c2sat.name,
             deltaV := .num (0.06 : ℝ), prevVelocity := .num 7.5,
             newVelocity := .num 7.56, timestamp := "t" } ∧
    (maneuverCheck c2sat (.num 7.53) "t").1 = none :=
  (c2_maneuver_rule Unit c2sat (.num 0) "t").2.2.2.2 rfl

/-- Helper: every record built by `initTLEs` starts with a null
previous-velocity cache. -/
theorem initTLEs_prevVelocity {S : Type}
    (t2s : String → String → Except Unit S) (tles : List TLEInput) :
    ∀ r ∈ (initTLEs t2s tles : List (SatRecord S)), r.prevVelocity = none := by
  intro r hr
  rcases List.mem_filterMap.mp hr with ⟨t, _, hf⟩
  rcases h : t2s t.line1 t.line2 with e | s
  · rw [h] at hf; cases hf
  · rw [h] at hf
    simp only [Option.some.injEq] at hf
    rw [← hf]

/-- Helper: `initTLEs` keeps exactly the element sets accepted by
`twoline2satrec`. -/
theorem initTLEs_length {S : Type}
    (t2s : String → String → Except Unit S) (tles : List TLEInput) :
    (initTLEs t2s tles : List (SatRecord S)).length =
      tles.countP (acceptsTLE t2s) := by
  induction tles with
  | nil => rfl
  | cons t ts ih =>
      rcases h : t2s t.line1 t.line2 with e | s <;>
        simp [initTLEs, List.filterMap_cons, List.countP_cons, acceptsTLE, h,
          ← ih, initTLEs]

/-- Helper: with an empty previous-velocity cache the loop body emits no
maneuver event, along every control path. -/
theorem processSat_no_prev {S : Type} (P : Primitives S) (ts : String)
    (g : JSR) (sat : SatRecord S) (hs : sat.prevVelocity = none) :
    (processSat P ts g sat).2.1 = none := by
  have hmc : ∀ (v : JSR) (tst : String), (maneuverCheck sat v tst).1 = none := by
    intro v tst; simp [maneuverCheck, hs]
  simp only [processSat]
  repeat' split
  all_goals first
    | rfl
    | exact hmc _ _

/-- Helper: a tick over a table whose caches are all empty emits no
maneuver events. -/
theorem propagateAll_no_prev {S : Type} (P : Primitives S)
    (sats : List (SatRecord S)) (ts : String)
    (h : ∀ r ∈ sats, r.prevVelocity = none) :
    (propagateAll P sats ts).maneuvers = [] := by
  simp only [propagateAll]
  rw [List.filterMap_eq_nil_iff]
  intro x hx
  rcases List.mem_map.mp hx with ⟨sat, hmem, rfl⟩
  exact processSat_no_prev P ts (P.gstime ts) sat (h sat hmem)

/-- Claim C10: an init message fully replaces the tracked set (the new
table does not depend on the old one) and resets every object's
previous-velocity cache to null, so the first propagate processed after
any initialization emits no maneuvers message for any object; the
reported tracked count equals the number of element sets accepted by
`twoline2satrec`. -/
theorem c10_init_replaces_and_resets :
    ∀ (S : Type) (P : Primitives S) (t2s : String → String → Except Unit S)
      (tles : List TLEInput) (sats sats' : List (SatRecord S)) (ts : String),
      (onmessage P t2s sats (.init tles)).1 =
        (onmessage P t2s sats' (.init tles)).1 ∧
      (∀ r ∈ (onmessage P t2s sats (.init tles)).1, r.prevVelocity = none) ∧
      (onmessage P t2s sats (.init tles)).2.initComplete =
        some (tles.countP (acceptsTLE t2s)) ∧
      ((onmessage P t2s (onmessage P t2s sats (.init tles)).1
          (.propagate ts)).2).maneuvers = none := by
  intro S P t2s tles sats sats' ts
  refine ⟨rfl, ?_, ?_, ?_⟩
  · exact fun r hr => initTLEs_prevVelocity t2s tles r hr
  · simp only [onmessage]
    exact congrArg some (initTLEs_length t2s tles)
  · have hm : (propagateAll P (initTLEs t2s tles) ts).maneuvers = [] :=
      propagateAll_no_prev P _ ts (initTLEs_prevVelocity t2s tles)
    simp [onmessage, hm]

/-- The trivial primitives used by worker-level witnesses: propagation
returns a nullish result. -/
def workerPrims0 : Primitives Unit :=
  { propagate := fun _ _ => .ok none, gstime := fun _ => .nan,
    eciToGeodetic := fun _ _ =>
      { latitude := .nan, longitude := .nan, height := .nan } }

/-- The record `initTLEs` builds from `tleInput0` when `twoline2satrec`
accepts it. -/
def c10rec : SatRecord Unit :=
  { norad_id := 25544, name := "ISS", object_type := "UNKNOWN", satrec := (),
    prevVelocity := none }

/-- Witness for C10 on a one-element catalog. -/
theorem c10_witness :
    c10rec.prevVelocity = none ∧
    (onmessage workerPrims0 (fun _ _ => Except.ok ()) []
        (.init [tleInput0])).2.initComplete =
      some ([tleInput0].countP (acceptsTLE (fun _ _ => Except.ok ()))) ∧
    ((onmessage workerPrims0 (fun _ _ => Except.ok ())
        (onmessage workerPrims0 (fun _ _ => Except.ok ()) []
          (.init [tleInput0])).1
        (.propagate "t")).2).maneuvers = none := by
  obtain ⟨h1, h2, h3, h4⟩ := c10_init_replaces_and_resets Unit workerPrims0
    (fun _ _ => Except.ok ()) [tleInput0] [] [] "t"
  refine ⟨h2 c10rec ?_, h3, h4⟩
  show c10rec ∈ (initTLEs (fun _ _ => Except.ok ()) [tleInput0] :
    List (SatRecord Unit))
  simp [initTLEs, tleInput0, c10rec]

/-- Primitives for the C9 instance: propagation succeeds with velocity
magnitude 7.56 km/s but a geodetic height of 200000 km, outside the
validity bound. -/
def c9prims : Primitives Unit :=
  { propagate := fun _ _ => .ok (some
      { position := some ⟨.num 1, .num 0, .num 0⟩,
        velocity := some ⟨.num 7.56, .num 0, .num 0⟩ }),
    gstime := fun _ => .num 0,
    eciToGeodetic := fun _ _ =>
      { latitude := .num 0, longitude := .num 0, height := .num 200000 } }

/-- The satellite for the C9 instance, with previous velocity 7.5. -/
def c9sat : SatRecord Unit :=
  { norad_id := 7, name := "X", object_type := "PAYLOAD", satrec := (),
    prevVelocity := some (.num 7.5) }

/-- Helper: `degreesLat` at zero radians. -/
theorem degreesLat_zero : degreesLat (.num 0) = .ok (.num 0) := by
  have h : ¬((0 : ℝ) < -(Real.pi / 2) ∨ Real.pi / 2 < (0 : ℝ)) := by
    push_neg
    constructor <;> linarith [Real.pi_pos]
  show (if (0 : ℝ) < -(Real.pi / 2) ∨ Real.pi / 2 < (0 : ℝ)
    then (Except.error () : Except Unit JSR)
    else .ok (.num ((0 : ℝ) * 180 / Real.pi))) = .ok (.num 0)
  rw [if_neg h]
  norm_num

/-- Helper: `degreesLong` at zero radians. -/
theorem degreesLong_zero : degreesLong (.num 0) = .ok (.num 0) := by
  have h : ¬((0 : ℝ) < -Real.pi ∨ Real.pi < (0 : ℝ)) := by
    push_neg
    constructor <;> linarith [Real.pi_pos]
  show (if (0 : ℝ) < -Real.pi ∨ Real.pi < (0 : ℝ)
    then (Except.error () : Except Unit JSR)
    else .ok (.num ((0 : ℝ) * 180 / Real.pi))) = .ok (.num 0)
  rw [if_neg h]
  norm_num

/-- Helper: the worker's velocity-magnitude computation on the vector
(v, 0, 0) with v nonnegative. -/
theorem velocityMagnitude_axis (v : ℝ) (hv : 0 ≤ v) :
    jsrSqrt (jsrAdd (jsrAdd (jsrMul (.num v) (.num v))
      (jsrMul (.num 0) (.num 0))) (jsrMul (.num 0) (.num 0))) = .num v := by
  rw [jsrMul_num_num, jsrMul_num_num, jsrAdd_num_num, jsrAdd_num_num,
    show v * v + 0 * 0 + 0 * 0 = v ^ 2 from by ring,
    jsrSqrt_num_of_nonneg (by positivity), Real.sqrt_sq hv]

/-- Claim C9: in the worker's propagate step, maneuver detection and the
previous-velocity overwrite happen before the position-validity filter:
on this input a maneuver event (delta-v 0.06) is emitted for an object
whose state in the same tick has altitude 200000 km and is therefore
absent from the published snapshot, and the velocity cache is updated
from that dropped state. -/
theorem c9_maneuver_before_filter :
    (propagateAll c9prims [c9sat] "t").results = [] ∧
    (propagateAll c9prims [c9sat] "t").maneuvers =
      [{ norad_id := 7, name := "X", deltaV := .num (0.06 : ℝ),
         prevVelocity := .num 7.5, newVelocity := .num 7.56, timestamp := "t" }] ∧
    (propagateAll c9prims [c9sat] "t").satellites =
      [{ norad_id := 7, name := "X", object_type := "PAYLOAD", satrec := (),
         prevVelocity := some (.num 7.56) }] := by
  have hvel := velocityMagnitude_axis 7.56 (by norm_num)
  have e1 : jsrLt (.num (0 : ℝ)) (.num (7.56 : ℝ)) := by
    rw [jsrLt_num_num]; norm_num
  have h56 : jsrAbs (jsrSub (.num (7.56 : ℝ)) (.num (7.5 : ℝ))) =
      .num (0.06 : ℝ) := by
    rw [jsrSub_num_num, jsrAbs_num,
      show (7.56 : ℝ) - 7.5 = 0.06 from by norm_num,
      abs_of_nonneg (by norm_num : (0 : ℝ) ≤ 0.06)]
  have e3 : jsrLt (.num (0.05 : ℝ)) (.num (0.06 : ℝ)) := by
    rw [jsrLt_num_num]; norm_num
  have hmc : maneuverCheck c9sat (.num (7.56 : ℝ)) "t" =
      (some { norad_id := 7, name := "X", deltaV := .num (0.06 : ℝ),
              prevVelocity := .num 7.5, newVelocity := .num 7.56,
              timestamp := "t" },
       { norad_id := 7, name := "X", object_type := "PAYLOAD", satrec := (),
         prevVelocity := some (.num 7.56) }) := by
    have a1 : |(3 : ℝ) / 50| = 3 / 50 := abs_of_nonneg (by norm_num)
    norm_num [maneuverCheck, c9sat, h56, a1]
  have halt : jsrLt (.num (100000 : ℝ)) (.num (200000 : ℝ)) := by
    rw [jsrLt_num_num]; norm_num
  have hps : processSat c9prims "t" (c9prims.gstime "t") c9sat =
      (none,
       some { norad_id := 7, name := "X", deltaV := .num (0.06 : ℝ),
              prevVelocity := .num 7.5, newVelocity := .num 7.56,
              timestamp := "t" },
       { norad_id := 7, name := "X", object_type := "PAYLOAD", satrec := (),
         prevVelocity := some (.num 7.56) }) := by
    simp only [processSat, c9prims, degreesLat_zero, degreesLong_zero]
    rw [hvel, hmc]
    simp [halt]
  refine ⟨?_, ?_, ?_⟩ <;> simp [propagateAll, hps]

/-- Helper: a successful `degreesLat` conversion yields NaN or a finite
number (never an infinity). -/
theorem degreesLat_ok_shape {x y : JSR} (h : degreesLat x = .ok y) :
    y = .nan ∨ ∃ r : ℝ, y = .num r := by
  cases x with
  | nan => injection h with h; exact Or.inl h.symm
  | inf => cases h
  | ninf => cases h
  | num r =>
      simp only [degreesLat] at h
      split at h
      · cases h
      · injection h with h; exact Or.inr ⟨_, h.symm⟩

/-- Helper: a successful `degreesLong` conversion yields NaN or a finite
number (never an infinity). -/
theorem degreesLong_ok_shape {x y : JSR} (h : degreesLong x = .ok y) :
    y = .nan ∨ ∃ r : ℝ, y = .num r := by
  cases x with
  | nan => injection h with h; exact Or.inl h.symm
  | inf => cases h
  | ninf => cases h
  | num r =>
      simp only [degreesLong] at h
      split at h
      · cases h
      · injection h with h; exact Or.inr ⟨_, h.symm⟩

/-- Helper: any position record produced by the loop body has finite
(non-NaN, non-infinite) latitude, longitude and altitude, the altitude
within [0, 100000]. -/
theorem processSat_results_valid {S : Type} (P : Primitives S) (ts : String)
    (g : JSR) (sat : SatRecord S) :
    ∀ rec : PosRecord, (processSat P ts g sat).1 = some rec →
      ∃ la lo al : ℝ, rec.lat = .num la ∧ rec.lon = .num lo ∧
        rec.alt = .num al ∧ 0 ≤ al ∧ al ≤ 100000 := by
  simp only [processSat]
  split
  · exact fun rec h => by simp at h
  · exact fun rec h => by simp at h
  · split
    · exact fun rec h => by simp at h
    · split
      · exact fun rec h => by simp at h
      · split
        · exact fun rec h => by simp at h
        · next lat hla =>
            split
            · exact fun rec h => by simp at h
            · next lon hlo =>
                split
                · exact fun rec h => by simp at h
                · next hc1 =>
                    split
                    · exact fun rec h => by simp at h
                    · next hc2 =>
                        intro rec h
                        simp only [Bool.or_eq_true, not_or,
                          Bool.not_eq_true] at hc1
                        obtain ⟨⟨hnl, hno⟩, hna⟩ := hc1
                        simp at h
                        subst h
                        rcases degreesLat_ok_shape hla with hl | ⟨la, hl⟩
                        · rw [hl] at hnl; cases hnl
                        · rcases degreesLong_ok_shape hlo with ho | ⟨lo, ho⟩
                          · rw [ho] at hno; cases hno
                          · rcases halt : (P.eciToGeodetic _ g).height
                              with _ | _ | _ | al
                            · rw [halt] at hna; cases hna
                            · rw [halt] at hc2
                              exact absurd (Or.inr trivial) hc2
                            · rw [halt] at hc2
                              exact absurd (Or.inl trivial) hc2
                            · rw [halt] at hc2
                              refine ⟨la, lo, al, by simp [hl], by simp [ho],
                                by simp [halt], ?_, ?_⟩
                              · by_contra hcon
                                exact hc2 (Or.inl (by
                                  rw [jsrLt_num_num]
                                  exact lt_of_not_le hcon))
                              · by_contra hcon
                                exact hc2 (Or.inr (by
                                  rw [jsrLt_num_num]
                                  exact lt_of_not_le hcon))

/-- Claim C4: every record in the snapshot published by a worker tick has
finite latitude, longitude and altitude, the altitude within
[0, 100000] km; results violating this are (by the same case analysis)
never pushed into the snapshot. -/
theorem c4_snapshot_bounds :
    ∀ (S : Type) (P : Primitives S) (sats : List (SatRecord S)) (ts : String)
      (rec : PosRecord), rec ∈ (propagateAll P sats ts).results →
      ∃ la lo al : ℝ, rec.lat = .num la ∧ rec.lon = .num lo ∧
        rec.alt = .num al ∧ 0 ≤ al ∧ al ≤ 100000 := by
  intro S P sats ts rec hmem
  simp only [propagateAll] at hmem
  rcases List.mem_filterMap.mp hmem with ⟨trip, htrip, hfst⟩
  rcases List.mem_map.mp htrip with ⟨sat, _, rfl⟩
  exact processSat_results_valid P ts (P.gstime ts) sat rec hfst

/-- Primitives for the C4 witness: a fully valid propagation result at
altitude 400 km. -/
def c4prims : Primitives Unit :=
  { propagate := fun _ _ => .ok (some
      { position := some ⟨.num 1, .num 0, .num 0⟩,
        velocity := some ⟨.num 7, .num 0, .num 0⟩ }),
    gstime := fun _ => .num 0,
    eciToGeodetic := fun _ _ =>
      { latitude := .num 0, longitude := .num 0, height := .num 400 } }

/-- The satellite for the C4 witness (no previous velocity). -/
def c4sat : SatRecord Unit :=
  { norad_id := 1, name := "A", object_type := "UNKNOWN", satrec := (),
    prevVelocity := none }

/-- The record the C4 witness tick publishes. -/
def c4rec : PosRecord :=
  { norad_id := 1, name := "A", object_type := "UNKNOWN", lat := .num 0,
    lon := .num 0, alt := .num 400, velocity := .num 7 }

/-- Witness for C4: the concrete published record has finite coordinates
and in-range altitude. -/
theorem c4_witness :
    ∃ la lo al : ℝ, c4rec.lat = .num la ∧ c4rec.lon = .num lo ∧
      c4rec.alt = .num al ∧ 0 ≤ al ∧ al ≤ 100000 := by
  refine c4_snapshot_bounds Unit c4prims [c4sat] "t" c4rec ?_
  have hvel := velocityMagnitude_axis 7 (by norm_num)
  have hmc : maneuverCheck c4sat (.num (7 : ℝ)) "t" =
      (none, { norad_id := 1, name := "A", object_type := "UNKNOWN",
               satrec := (), prevVelocity := some (.num 7) }) := by
    simp [maneuverCheck, c4sat]
  have hno : ¬(jsrLt (JSR.num (400 : ℝ)) (.num 0) ∨
      jsrLt (.num 100000) (.num (400 : ℝ))) := by
    simp only [jsrLt_num_num]
    push_neg
    norm_num
  have hps : processSat c4prims "t" (c4prims.gstime "t") c4sat =
      (some c4rec, none,
       { norad_id := 1, name := "A", object_type := "UNKNOWN", satrec := (),
         prevVelocity := some (.num 7) }) := by
    simp only [processSat, c4prims, degreesLat_zero, degreesLong_zero]
    rw [hvel, hmc]
    simp [hno, c4rec, c4sat]
    norm_num
  simp [propagateAll, hps]

/-- Helper: the derived fields of a parsed record, expressed through the
parsed mean motion and eccentricity exactly as the source computes
them. -/
theorem parseTLErecord_fields (l1 l2 : String) :
    (parseTLErecord l1 l2).meanMotion =
      jsParseFloat (jsTrim (jsSubstring l2.data 52 63)) ∧
    (parseTLErecord l1 l2).eccentricity =
      jsParseFloat ('0' :: '.' :: jsTrim (jsSubstring l2.data 26 33)) ∧
    (parseTLErecord l1 l2).period =
      jsrDiv (.num 1440) (jq ((parseTLErecord l1 l2).meanMotion)) ∧
    (parseTLErecord l1 l2).semiMajorAxis =
      jsrCbrt (jsrMul (.num MU_EARTH) (jsrSq (jsrDiv
        (jsrMul ((parseTLErecord l1 l2).period) (.num 60))
        (.num (2 * Real.pi))))) ∧
    (parseTLErecord l1 l2).apogee =
      jsrSub (jsrMul ((parseTLErecord l1 l2).semiMajorAxis)
        (jsrAdd (.num 1) (jq ((parseTLErecord l1 l2).eccentricity))))
        (.num EARTH_RADIUS_KM) ∧
    (parseTLErecord l1 l2).perigee =
      jsrSub (jsrMul ((parseTLErecord l1 l2).semiMajorAxis)
        (jsrSub (.num 1) (jq ((parseTLErecord l1 l2).eccentricity))))
        (.num EARTH_RADIUS_KM) := by
  refine ⟨?_, ?_, ?_, ?_, ?_, ?_⟩ <;> simp only [parseTLErecord]

/-- Claim C3 (amended): for every element-set pair that parses and
satisfies the invariant (eccentricity in [0,1), mean motion > 0), the
derived quantities satisfy apogee >= perigee and period > 0.  (The
claimed lower bound perigee >= 0 does not follow and is dropped; see
the counterexample.) -/
theorem c3_derived_bounds :
    ∀ (l1 l2 : String) (r : OrbitalElements) (qe qn : ℚ),
      parseTLE l1 l2 = .ok r →
      r.eccentricity = some qe → 0 ≤ qe → qe < 1 →
      r.meanMotion = some qn → 0 < qn →
      ∃ T A Pg : ℝ, r.period = .num T ∧ 0 < T ∧
        r.apogee = .num A ∧ r.perigee = .num Pg ∧ Pg ≤ A := by
  intro l1 l2 r qe qn h he he0 he1 hn hn0
  injection h with h
  subst h
  obtain ⟨hf1, hf2, hf3, hf4, hf5, hf6⟩ := parseTLErecord_fields l1 l2
  have hqn0 : ((qn : ℝ)) ≠ 0 := by
    have : (0 : ℝ) < (qn : ℝ) := by exact_mod_cast hn0
    exact this.ne'
  have hT : (parseTLErecord l1 l2).period = .num ((1440 : ℝ) / (qn : ℝ)) := by
    rw [hf3, hn, jq_some, jsrDiv_num_num_of_ne _ hqn0]
  have hTpos : (0 : ℝ) < 1440 / (qn : ℝ) := by
    apply div_pos (by norm_num)
    exact_mod_cast hn0
  have h2pi : (2 * Real.pi) ≠ 0 := by positivity
  have hxpos : (0 : ℝ) < 1440 / (qn : ℝ) * 60 / (2 * Real.pi) := by
    apply div_pos (mul_pos hTpos (by norm_num)) (by positivity)
  have hbase : (0 : ℝ) < MU_EARTH *
      ((1440 / (qn : ℝ) * 60 / (2 * Real.pi)) *
        (1440 / (qn : ℝ) * 60 / (2 * Real.pi))) :=
    mul_pos (by norm_num [MU_EARTH]) (mul_pos hxpos hxpos)
  have hA : (parseTLErecord l1 l2).semiMajorAxis =
      .num ((MU_EARTH * ((1440 / (qn : ℝ) * 60 / (2 * Real.pi)) *
        (1440 / (qn : ℝ) * 60 / (2 * Real.pi)))) ^ ((1 : ℝ) / 3)) := by
    rw [hf4, hT, jsrMul_num_num, jsrDiv_num_num_of_ne _ h2pi, jsrSq_num,
      jsrMul_num_num, jsrCbrt_num_of_nonneg hbase.le]
  have hApos : (0 : ℝ) < (MU_EARTH * ((1440 / (qn : ℝ) * 60 / (2 * Real.pi)) *
      (1440 / (qn : ℝ) * 60 / (2 * Real.pi)))) ^ ((1 : ℝ) / 3) :=
    Real.rpow_pos_of_pos hbase _
  have hap : (parseTLErecord l1 l2).apogee =
      .num ((MU_EARTH * ((1440 / (qn : ℝ) * 60 / (2 * Real.pi)) *
        (1440 / (qn : ℝ) * 60 / (2 * Real.pi)))) ^ ((1 : ℝ) / 3) *
        (1 + (qe : ℝ)) - EARTH_RADIUS_KM) := by
    rw [hf5, hA, he, jq_some, jsrAdd_num_num, jsrMul_num_num, jsrSub_num_num]
  have hpg : (parseTLErecord l1 l2).perigee =
      .num ((MU_EARTH * ((1440 / (qn : ℝ) * 60 / (2 * Real.pi)) *
        (1440 / (qn : ℝ) * 60 / (2 * Real.pi)))) ^ ((1 : ℝ) / 3) *
        (1 - (qe : ℝ)) - EARTH_RADIUS_KM) := by
    rw [hf6, hA, he, jq_some, jsrSub_num_num, jsrMul_num_num, jsrSub_num_num]
  have hqe0 : (0 : ℝ) ≤ (qe : ℝ) := by exact_mod_cast he0
  refine ⟨_, _, _, hT, hTpos, hap, hpg, ?_⟩
  have := hApos.le
  nlinarith [this, hqe0]

/-- The line 2 of the C3 instance: eccentricity field 9000000 (0.9) and
mean motion 16 rev/day. -/
def c3Line2 : String :=
  "2 25544  51.6416 247.4627 9000000 130.5360 325.0288 16.00000000563537"

/-- Helper: the C3 instance parses eccentricity 0.9. -/
theorem c3Line2_ecc :
    jsParseFloat ('0' :: '.' :: jsTrim (jsSubstring c3Line2.data 26 33)) =
      some (9 / 10) := by
  rw [show ('0' :: '.' :: jsTrim (jsSubstring c3Line2.data 26 33)) =
    "0.9000000".data from by decide]
  exact jsParseFloat_eval (1, 0, 9000000, 7, 0) (by decide)
    (by norm_num [ratOfParts])

/-- Helper: the C3 instance parses mean motion 16. -/
theorem c3Line2_mm :
    jsParseFloat (jsTrim (jsSubstring c3Line2.data 52 63)) = some 16 := by
  rw [show jsTrim (jsSubstring c3Line2.data 52 63) =
    "16.00000000".data from by decide]
  exact jsParseFloat_eval (1, 16, 0, 8, 0) (by decide)
    (by norm_num [ratOfParts])

/-- Claim C3 counterexample: the element set with eccentricity 0.9 and
mean motion 16 rev/day parses, satisfies the invariant, and yields a
strictly negative perigee — refuting `perigee >= 0`. -/
theorem c3_counterexample :
    ∃ (r : OrbitalElements) (qe qn : ℚ) (Pg : ℝ),
      parseTLE tleLine24 c3Line2 = .ok r ∧
      r.eccentricity = some qe ∧ 0 ≤ qe ∧ qe < 1 ∧
      r.meanMotion = some qn ∧ 0 < qn ∧
      r.perigee = .num Pg ∧ Pg < 0 := by
  obtain ⟨hf1, hf2, hf3, hf4, hf5, hf6⟩ := parseTLErecord_fields tleLine24 c3Line2
  have he : (parseTLErecord tleLine24 c3Line2).eccentricity = some (9 / 10) := by
    rw [hf2]; exact c3Line2_ecc
  have hn : (parseTLErecord tleLine24 c3Line2).meanMotion = some 16 := by
    rw [hf1]; exact c3Line2_mm
  have hT : (parseTLErecord tleLine24 c3Line2).period = .num (90 : ℝ) := by
    rw [hf3, hn, jq_some, jsrDiv_num_num_of_ne _
      (by norm_num : (((16 : ℚ) : ℝ)) ≠ 0)]
    norm_num
  have h2pi : (2 * Real.pi) ≠ 0 := by positivity
  have hbase0 : (0 : ℝ) ≤ MU_EARTH *
      (((90 : ℝ) * 60 / (2 * Real.pi)) * ((90 : ℝ) * 60 / (2 * Real.pi))) :=
    mul_nonneg (by norm_num [MU_EARTH]) (mul_self_nonneg _)
  have hA : (parseTLErecord tleLine24 c3Line2).semiMajorAxis =
      .num ((MU_EARTH * (((90 : ℝ) * 60 / (2 * Real.pi)) *
        ((90 : ℝ) * 60 / (2 * Real.pi)))) ^ ((1 : ℝ) / 3)) := by
    rw [hf4, hT, jsrMul_num_num, jsrDiv_num_num_of_ne _ h2pi, jsrSq_num,
      jsrMul_num_num, jsrCbrt_num_of_nonneg hbase0]
  have hpg : (parseTLErecord tleLine24 c3Line2).perigee =
      .num ((MU_EARTH * (((90 : ℝ) * 60 / (2 * Real.pi)) *
        ((90 : ℝ) * 60 / (2 * Real.pi)))) ^ ((1 : ℝ) / 3) *
        (1 - (((9 : ℚ) / 10 : ℚ) : ℝ)) - EARTH_RADIUS_KM) := by
    rw [hf6, hA, he, jq_some, jsrSub_num_num, jsrMul_num_num, jsrSub_num_num]
  have hpi3 : (3 : ℝ) < Real.pi := Real.pi_gt_three
  have hx0 : (0 : ℝ) < (90 : ℝ) * 60 / (2 * Real.pi) := by positivity
  have hx : ((90 : ℝ) * 60 / (2 * Real.pi)) < 900 := by
    rw [div_lt_iff₀ (by positivity)]
    nlinarith
  have hX2 : ((90 : ℝ) * 60 / (2 * Real.pi)) * ((90 : ℝ) * 60 / (2 * Real.pi)) <
      810000 := by nlinarith
  have hmul : MU_EARTH * (((90 : ℝ) * 60 / (2 * Real.pi)) *
      ((90 : ℝ) * 60 / (2 * Real.pi))) < MU_EARTH * 810000 := by
    apply mul_lt_mul_of_pos_left hX2
    norm_num [MU_EARTH]
  have hnum : (MU_EARTH : ℝ) * 810000 < (63781.37 : ℝ) ^ (3 : ℕ) := by
    norm_num [MU_EARTH]
  have hbaselt : MU_EARTH * (((90 : ℝ) * 60 / (2 * Real.pi)) *
      ((90 : ℝ) * 60 / (2 * Real.pi))) < (63781.37 : ℝ) ^ (3 : ℕ) := by
    linarith
  have hAlt : (MU_EARTH * (((90 : ℝ) * 60 / (2 * Real.pi)) *
      ((90 : ℝ) * 60 / (2 * Real.pi)))) ^ ((1 : ℝ) / 3) < 63781.37 := by
    have h1 := Real.rpow_lt_rpow hbase0 hbaselt (by norm_num : (0 : ℝ) < 1 / 3)
    have h2 : (((63781.37 : ℝ) ^ (3 : ℕ)) : ℝ) ^ ((1 : ℝ) / 3) = 63781.37 := by
      rw [← Real.rpow_natCast (63781.37 : ℝ) 3,
        ← Real.rpow_mul (by norm_num : (0 : ℝ) ≤ 63781.37)]
      norm_num
    rw [h2] at h1
    exact h1
  refine ⟨_, 9 / 10, 16, _, rfl, he, by norm_num, by norm_num, hn, by norm_num,
    hpg, ?_⟩
  have hcast : (((9 : ℚ) / 10 : ℚ) : ℝ) = 9 / 10 := by push_cast; ring
  rw [hcast]
  norm_num [EARTH_RADIUS_KM]
  nlinarith [hAlt]

/-- Witness for C3 at the concrete element set with eccentricity 0.9 and
mean motion 16. -/
theorem c3_witness :
    ∃ (r : OrbitalElements) (T A Pg : ℝ),
      parseTLE tleLine24 c3Line2 = .ok r ∧ r.period = .num T ∧ 0 < T ∧
      r.apogee = .num A ∧ r.perigee = .num Pg ∧ Pg ≤ A := by
  have he : (parseTLErecord tleLine24 c3Line2).eccentricity = some (9 / 10) := by
    rw [(parseTLErecord_fields tleLine24 c3Line2).2.1]; exact c3Line2_ecc
  have hn : (parseTLErecord tleLine24 c3Line2).meanMotion = some 16 := by
    rw [(parseTLErecord_fields tleLine24 c3Line2).1]; exact c3Line2_mm
  obtain ⟨T, A, Pg, h1, h2, h3, h4, h5⟩ :=
    c3_derived_bounds tleLine24 c3Line2 (parseTLErecord tleLine24 c3Line2)
      (9 / 10) 16 rfl he (by norm_num) (by norm_num) hn (by norm_num)
  exact ⟨_, T, A, Pg, rfl, h1, h2, h3, h4, h5⟩
